import Mathlib

/-!
Shallow embedding of the 3270Connect load-generation engine
(main program `src/unnamed/part_003` and adapter `src/connect3270/emulator.go`).

Conventions:
* Go `float64` fields that are only compared against zero (`Delay`) are
  modelled as `ℚ`; sample values stored in the metric ring buffers are
  likewise modelled as `ℚ` (only lengths of the buffers matter here).
* Go `int` fields that can be zero or negative (`Port`, coordinates,
  buffer limits) are modelled as `Int`; loop indices and counters as `Nat`.
* Emulator side effects (TCP exchanges, files, subprocesses) are modelled
  by explicit environments/oracles recording the outcome of each call, and
  the functions under scrutiny are translated as pure state transformers.
-/

/-- Character-list prefix test (the Go string functions below are modelled
on the character list of the string, so that they evaluate by kernel
reduction). -/
def charsStartWith : List Char → List Char → Bool
  | _, [] => true
  | [], _ :: _ => false
  | c :: s, p :: ps => c = p && charsStartWith s ps

/-- Substring search on character lists: does `sub` occur in `s`? -/
def charsContains : List Char → List Char → Bool
  | s, sub =>
    if charsStartWith s sub then true
    else
      match s with
      | [] => false
      | _ :: rest => charsContains rest sub

/-- Go `strings.HasPrefix`. -/
def goStartsWith (s pre : String) : Bool :=
  charsStartWith s.data pre.data

/-- Go `strings.Contains` (an empty `sub` is always contained, as in Go). -/
def goContains (s sub : String) : Bool :=
  charsContains s.data sub.data

/-- Left-to-right, non-overlapping replacement on character lists; the fuel
is the length of the subject, enough since every step consumes at least one
character when `old` is non-empty. -/
def replaceCharsAux (old new : List Char) : Nat → List Char → List Char
  | 0, s => s
  | _ + 1, [] => []
  | fuel + 1, c :: rest =>
    if charsStartWith (c :: rest) old then
      new ++ replaceCharsAux old new fuel ((c :: rest).drop old.length)
    else
      c :: replaceCharsAux old new fuel rest

/-- Go `strings.ReplaceAll` (an empty `old` is returned unchanged; the Go
corner case of an empty pattern never arises in this code base). -/
def goReplaceAll (s old new : String) : String :=
  if old = "" then s
  else String.mk (replaceCharsAux old.data new.data s.data.length s.data)

/-- Whitespace trimming on character lists (both ends). -/
def trimChars (l : List Char) : List Char :=
  ((l.dropWhile Char.isWhitespace).reverse.dropWhile Char.isWhitespace).reverse

/-- Go `strings.TrimSpace` (ASCII whitespace suffices for this code base). -/
def goTrim (s : String) : String :=
  String.mk (trimChars s.data)

/-- Go `strings.Join` / `String.intercalate`. -/
def goJoin (sep : String) : List String → String
  | [] => ""
  | [x] => x
  | x :: y :: xs => x ++ sep ++ goJoin sep (y :: xs)

/-- Go `strings.Fields`: splits around runs of whitespace, dropping empty
fields (`emulator.go` line 231 uses it on a command's output); `acc` holds
the characters of the field being read, in reverse. -/
def goFieldsAux : List Char → List Char → List String
  | [], acc => if acc.isEmpty then [] else [String.mk acc.reverse]
  | c :: cs, acc =>
    if c.isWhitespace then
      if acc.isEmpty then goFieldsAux cs []
      else String.mk acc.reverse :: goFieldsAux cs []
    else goFieldsAux cs (c :: acc)

/-- Go `strings.Fields` on a string. -/
def goFields (s : String) : List String :=
  goFieldsAux s.data []

/-- Coordinates record from `emulator.go` lines 88-92 (Go `int` fields). -/
structure Coordinates where
  Row : Int
  Column : Int
  Length : Int
deriving DecidableEq, Repr

/-- Step record from `part_003` lines 65-70.  The Go field `Type` is spelled
`type` here because `Type` is reserved in Lean. -/
structure Step where
  type : String
  Coordinates : Coordinates
  Text : String
  Delay : ℚ
deriving DecidableEq, Repr

/-- Configuration record from `part_003` lines 51-62 (the fields the core
engine reads). -/
structure Configuration where
  Host : String
  Port : Int
  OutputFilePath : String
  WaitForField : Bool
  Steps : List Step
  Delay : ℚ
  Token : String
  InputFilePath : String
  RampUpBatchSize : Int
  RampUpDelay : ℚ
deriving DecidableEq, Repr

/-- `resolveTokenPlaceholder` from `part_003` lines 72-85: if the text does
not contain the literal `{{token}}` it is returned unchanged; with an empty
token a process-wide warning fires (a pure no-op here) and the text is
returned unchanged; otherwise every occurrence is replaced. -/
def resolveTokenPlaceholder (original token : String) : String :=
  if !goContains original "{{token}}" then original
  else if token = "" then original
  else goReplaceAll original "{{token}}" token

/-- Per-step half of `validateConfiguration`, `part_003` lines 1597-1626:
the first offending step determines the error. -/
def validateSteps : List Step → Except String Unit
  | [] => .ok ()
  | step :: rest =>
    if step.type = "Connect" ∨ step.type = "AsciiScreenGrab" ∨
       step.type = "PressEnter" ∨ step.type = "PressTab" ∨
       step.type = "WaitForField" ∨ step.type = "Disconnect" ∨
       step.type = "HumanDelay" ∨ goStartsWith step.type "PressPF" then
      if step.type = "HumanDelay" ∧ step.Delay ≤ 0 then
        .error "HumanDelay step needs a positive Delay value"
      else
        validateSteps rest
    else if step.type = "CheckValue" ∨ step.type = "FillString" then
      if step.Coordinates.Row = 0 ∨ step.Coordinates.Column = 0 then
        .error ("coords missing in " ++ step.type ++ " step - lost in space")
      else if step.Text = "" then
        .error ("text empty in " ++ step.type ++ " step - cat got your tongue?")
      else
        validateSteps rest
    else
      .error ("unknown step type: " ++ step.type ++ " - what’s this nonsense?")

/-- `validateConfiguration` from `part_003` lines 1571-1628. -/
def validateConfiguration (config : Configuration) : Except String Unit :=
  if config.Host = "" then
    .error "host is empty - where’s the party at?"
  else if config.Port ≤ 0 then
    .error "port is invalid - ports cant be negative silly"
  else if config.Delay < 0 then
    .error "Delay must be zero or positive"
  else if config.OutputFilePath = "" ∧
          config.Steps.any (fun s => s.type == "AsciiScreenGrab") then
    .error "output file path is empty - screen grab needs a home"
  else
    validateSteps config.Steps

/-- History limits from `part_003` lines 38-45. -/
def cpuHistoryLimit : Int := 120

/-- Memory-history limit, `part_003` line 40. -/
def memHistoryLimit : Int := 120

/-- Duration ring-buffer limit, `part_003` line 41. -/
def workflowDurationHistoryLimit : Int := 500

/-- `appendLimitedFloat` from `part_003` lines 162-170: append, then if the
buffer exceeds `limit` keep its last `limit` entries (`float64` samples are
modelled as `ℚ`; only the length is at stake). -/
def appendLimitedFloat (slice : List ℚ) (value : ℚ) (limit : Int) : List ℚ :=
  let s := slice ++ [value]
  if limit ≤ 0 then s
  else if (s.length : Int) > limit then s.drop (s.length - limit.toNat)
  else s

/-- Candidate-port successor from `part_003` lines 1524-1527: increment, and
past `maxPort = 65000` wrap back to `startPort`. -/
def nextCandidate (startPort last : Nat) : Nat :=
  if last + 1 > 65000 then startPort else last + 1

/-- `getNextAvailablePort` from `part_003` lines 1518-1542, relative to an
availability oracle `avail` (the listener probe `isPortAvailable`, lines
1544-1555) and a fuel bound standing in for the unbounded search: starting
from cursor `last`, advance with `nextCandidate` until an available port is
found.  The exhaustion counter and its sleep (lines 1531-1540) re-enter the
same loop without touching the cursor, so they do not change the value
returned. -/
def getNextAvailablePortAux (avail : Nat → Bool) (startPort : Nat) :
    Nat → Nat → Option Nat
  | _, 0 => none
  | last, fuel + 1 =>
    let cand := nextCandidate startPort last
    if avail cand then some cand
    else getNextAvailablePortAux avail startPort cand fuel

/-- Error kind of the script-port transport layer (`emulator.go` line 74
distinguishes `errScriptTransport`-wrapped failures from the semantic
`error ...` terminator, lines 192-197). -/
inductive ScriptErr where
  | transport (msg : String)
  | semantic (msg : String)
deriving DecidableEq, Repr

/-- Response-reading loop of `sendScriptCommand`, `emulator.go` lines
181-201, over the already line-split response: a line `ok` terminates
successfully with the joined data lines, a line starting with `error`
yields the trimmed remainder as a semantic failure (or the fallback message
when it trims to nothing), running out of lines is a read failure, which is
a transport error. -/
def parseScriptResponse (acc : List String) : List String → Except ScriptErr String
  | [] => .error (.transport "read")
  | line :: rest =>
    if line = "ok" then .ok (goJoin "\n" acc)
    else if goStartsWith line "error" then
      let msg := goTrim (String.mk (line.data.drop 5))
      .error (.semantic (if msg = "" then "x3270 reported an error" else msg))
    else parseScriptResponse (acc ++ [line]) rest

deriving instance DecidableEq for Except

/-- Environment of one script exchange: whether a fresh dial would succeed,
whether the write succeeds, and the response lines the emulator produces. -/
structure SendEnv where
  dialOk : Bool
  writeOk : Bool
  lines : List String
deriving DecidableEq, Repr

/-- Outcome of one `sendScriptCommand` call: the connection state left
behind (`true` = a live script connection) and the result. -/
structure ScriptAttempt where
  conn : Bool
  result : Except ScriptErr String
deriving DecidableEq, Repr

/-- `sendScriptCommand` from `emulator.go` lines 158-202 as a transformer of
the connection state: dial when there is no connection (dial failure is a
transport error and leaves no connection), then write (failure closes the
connection, transport error), then read the response; a read failure closes
the connection (transport error), while the semantic `error ...` terminator
and the `ok` terminator leave the connection open. -/
def sendScriptCommand (conn : Bool) (env : SendEnv) : ScriptAttempt :=
  if !conn ∧ !env.dialOk then ⟨false, .error (.transport "dial")⟩
  else if !env.writeOk then ⟨false, .error (.transport "write")⟩
  else
    match parseScriptResponse [] env.lines with
    | .ok out => ⟨true, .ok out⟩
    | .error (.semantic m) => ⟨true, .error (.semantic m)⟩
    | .error (.transport m) => ⟨false, .error (.transport m)⟩

/-- Trace of one `scriptRequest`: how many `sendScriptCommand` calls were
made, the final connection state, and the final result. -/
structure ScriptRequestTrace where
  attempts : Nat
  conn : Bool
  result : Except ScriptErr String
deriving DecidableEq, Repr

/-- `scriptRequest` from `emulator.go` lines 204-213: one exchange, and on a
transport error (only) one further exchange whose result is returned as is;
`env1`/`env2` describe the environment seen by the first and second
exchange. -/
def scriptRequest (conn : Bool) (env1 env2 : SendEnv) : ScriptRequestTrace :=
  let a1 := sendScriptCommand conn env1
  match a1.result with
  | .ok out => ⟨1, a1.conn, .ok out⟩
  | .error (.semantic m) => ⟨1, a1.conn, .error (.semantic m)⟩
  | .error (.transport _) =>
    let a2 := sendScriptCommand a1.conn env2
    ⟨2, a2.conn, a2.result⟩

/-- Decides whether a script result is a transport error. -/
def isTransport : Except ScriptErr String → Bool
  | .error (.transport _) => true
  | _ => false

/-- Status check of `WaitForField` applied to a successful `Wait(…,
InputField)` response, `emulator.go` lines 224-237: empty output is
accepted, otherwise the first whitespace-separated token must be `U`. -/
def waitForFieldCheck (output : String) : Except String Unit :=
  if output = "" then .ok ()
  else
    match goFields output with
    | [] => .ok ()
    | tok :: _ =>
      if tok ≠ "U" then .error ("keyboard not unlocked, state was: " ++ tok)
      else .ok ()

/-- Oracle for the adapter operations a step dispatches to (`Emulator`
methods of `emulator.go`); each field records the outcome the emulator
produces for that operation during the run under consideration (retry loops
inside the adapter are folded into the recorded outcome; output-file paths
do not influence the outcome and are omitted). -/
structure EmulatorModel where
  initializeOutput : Except String Unit
  connect : Except String Unit
  disconnect : Except String Unit
  getValue : Int → Int → Int → Except String String
  setString : String → Except String Unit
  fillString : Int → Int → String → Except String Unit
  asciiScreenGrab : Except String Unit
  press : String → Except String Unit
  waitForField : Except String Unit

/-- `executeStep` from `part_003` lines 787-892: dispatch on `Step.Type`.
`CheckValue` resolves the token placeholder, reads the screen value and
compares it trimmed against the trimmed expected text, failing with the
exact message built at line 801; `FillString` with both coordinates zero
uses `SetString` at the cursor; `Disconnect` failures are swallowed;
`HumanDelay` requires a positive delay; `PressPF1` … `PressPF24` are the
only function keys known; anything else is an unknown step type. -/
def executeStep (e : EmulatorModel) (step : Step) (token : String) :
    Except String Unit :=
  match step.type with
  | "InitializeOutput" => e.initializeOutput
  | "Connect" => e.connect
  | "CheckValue" =>
    let expected := resolveTokenPlaceholder step.Text token
    match e.getValue step.Coordinates.Row step.Coordinates.Column
        step.Coordinates.Length with
    | .error err => .error err
    | .ok rawValue =>
      let value := goTrim rawValue
      if value ≠ goTrim expected then
        .error ("CheckValue failed. Expected: " ++ expected ++ ", Found: " ++ value)
      else .ok ()
  | "FillString" =>
    let text := resolveTokenPlaceholder step.Text token
    if step.Coordinates.Row = 0 ∧ step.Coordinates.Column = 0 then
      e.setString text
    else
      e.fillString step.Coordinates.Row step.Coordinates.Column text
  | "AsciiScreenGrab" => e.asciiScreenGrab
  | "PressEnter" => e.press "Enter"
  | "PressTab" => e.press "Tab"
  | "WaitForField" => e.waitForField
  | "Disconnect" =>
    match e.disconnect with
    | .ok _ => .ok ()
    | .error _ => .ok ()
  | "PressPF1" => e.press "PF(1)"
  | "PressPF2" => e.press "PF(2)"
  | "PressPF3" => e.press "PF(3)"
  | "PressPF4" => e.press "PF(4)"
  | "PressPF5" => e.press "PF(5)"
  | "PressPF6" => e.press "PF(6)"
  | "PressPF7" => e.press "PF(7)"
  | "PressPF8" => e.press "PF(8)"
  | "PressPF9" => e.press "PF(9)"
  | "PressPF10" => e.press "PF(10)"
  | "PressPF11" => e.press "PF(11)"
  | "PressPF12" => e.press "PF(12)"
  | "PressPF13" => e.press "PF(13)"
  | "PressPF14" => e.press "PF(14)"
  | "PressPF15" => e.press "PF(15)"
  | "PressPF16" => e.press "PF(16)"
  | "PressPF17" => e.press "PF(17)"
  | "PressPF18" => e.press "PF(18)"
  | "PressPF19" => e.press "PF(19)"
  | "PressPF20" => e.press "PF(20)"
  | "PressPF21" => e.press "PF(21)"
  | "PressPF22" => e.press "PF(22)"
  | "PressPF23" => e.press "PF(23)"
  | "PressPF24" => e.press "PF(24)"
  | "HumanDelay" =>
    if step.Delay ≤ 0 then .error "HumanDelay requires a positive Delay value"
    else .ok ()
  | other => .error ("unknown step type: " ++ other)

/-- Environment of one `runWorkflowWithEmulator` call: the shutdown flag and
clock observations made at each checkpoint, and the outcomes of the file
operations, mirroring the checks at `part_003` lines 585-661. -/
structure RunEnv where
  shutdownAtStart : Bool
  overallDeadlineSet : Bool
  deadlinePassed : Bool
  tempFileCreate : Except String String
  inputFileLoad : Except String (List Step)
  workflowTimeout : Int
  timedOutAt : Nat → Bool
  shutdownAt : Nat → Bool
  elapsedSeconds : Nat
  showConnectionErrors : Bool

/-- Message of the per-workflow timeout failure, `part_003` line 656. -/
def timeoutMessage (env : RunEnv) : String :=
  "workflow timed out after " ++ toString env.elapsedSeconds ++ "s"

/-- Result of the step-iteration loop of `runWorkflowWithEmulator`
(`part_003` lines 650-692): the two outcome flags, the errors passed to
`addError`, and whether the loop was abandoned by a shutdown break (line
660 or line 674). -/
structure StepLoopResult where
  workflowFailed : Bool
  connectFailed : Bool
  errors : List String
  shutdownAborted : Bool
deriving DecidableEq, Repr

/-- Outcome of one loop iteration's step call, `part_003` lines 665-671: run
the step, and after a successful `Connect` with the workflow-level
`WaitForField` flag set, wait for an input field. -/
def stepResult (e : EmulatorModel) (cfg : Configuration) (step : Step) :
    Except String Unit :=
  match executeStep e step cfg.Token with
  | .ok _ =>
    if step.type = "Connect" ∧ cfg.WaitForField then e.waitForField
    else .ok ()
  | .error m => .error m

/-- Step-iteration loop of `runWorkflowWithEmulator`, `part_003` lines
650-692, with the loop state (`workflowFailed`, `connectFailed`, the error
list) made explicit: break when a previous step failed; fail on the
per-workflow timeout; break silently when shutdown is requested (before the
step, or when the step reports `shutdown requested`); a failed `Connect`
sets `connectFailed` (recording the error only under the
`showConnectionErrors` policy) and stops; any other failure sets
`workflowFailed`, records the error and stops. -/
def runSteps (e : EmulatorModel) (cfg : Configuration) (env : RunEnv) :
    List Step → Nat → Bool → Bool → List String → StepLoopResult
  | [], _, wf, cf, errs => ⟨wf, cf, errs, false⟩
  | step :: rest, idx, wf, cf, errs =>
    if wf then ⟨wf, cf, errs, false⟩
    else if env.workflowTimeout > 0 ∧ env.timedOutAt idx then
      ⟨true, cf, errs ++ [timeoutMessage env], false⟩
    else if env.shutdownAt idx then ⟨wf, cf, errs, true⟩
    else
      match stepResult e cfg step with
      | .ok _ => runSteps e cfg env rest (idx + 1) wf cf errs
      | .error m =>
        if m = "shutdown requested" then ⟨wf, cf, errs, true⟩
        else if step.type = "Connect" then
          ⟨wf, true, if env.showConnectionErrors then errs ++ [m] else errs, false⟩
        else
          runSteps e cfg env rest (idx + 1) true cf (errs ++ [m])

/-- Observable result of one `runWorkflowWithEmulator` call: the returned
error (`ret`), the increments applied to the three run counters, the errors
recorded in the shared error list, and whether the step loop was abandoned
by a shutdown break. -/
structure RunResult where
  ret : Option String
  started : Nat
  completed : Nat
  failed : Nat
  errors : List String
  shutdownAborted : Bool
deriving DecidableEq, Repr

/-- `runWorkflowWithEmulator` from `part_003` lines 583-714: return nil
before counting anything when shutdown was requested or the run-wide
deadline passed; count the start; propagate (and record) a temp-file,
output-initialization or input-file error via `handleError` (lines
2426-2430, which returns its argument); otherwise iterate the steps and
tally exactly one of `TotalFailed` / nothing (connect failure) /
`TotalCompleted`. -/
def runWorkflowWithEmulator (e : EmulatorModel) (cfg : Configuration)
    (env : RunEnv) : RunResult :=
  if env.shutdownAtStart then ⟨none, 0, 0, 0, [], false⟩
  else if env.overallDeadlineSet ∧ env.deadlinePassed then ⟨none, 0, 0, 0, [], false⟩
  else
    match (if cfg.OutputFilePath = "" then env.tempFileCreate
           else .ok cfg.OutputFilePath : Except String String) with
    | .error m => ⟨some m, 1, 0, 0, [m], false⟩
    | .ok _ =>
      match e.initializeOutput with
      | .error m => ⟨some m, 1, 0, 0, [m], false⟩
      | .ok _ =>
        match (if cfg.InputFilePath = "" then .ok cfg.Steps
               else env.inputFileLoad : Except String (List Step)) with
        | .error m => ⟨some m, 1, 0, 0, [m], false⟩
        | .ok steps =>
          let r := runSteps e cfg env steps 0 false false []
          if r.workflowFailed then ⟨none, 1, 0, 1, r.errors, r.shutdownAborted⟩
          else if r.connectFailed then ⟨none, 1, 0, 0, r.errors, r.shutdownAborted⟩
          else ⟨none, 1, 1, 0, r.errors, r.shutdownAborted⟩

/-- The error, if any, that `runWorkflowWithEmulator` hits before reaching
its step loop (temp-file creation at line 620, output initialization at
line 633, input-file loading at line 641); `none` when the step loop is
reached or when a pre-start shutdown/deadline return fires. -/
def initFailure (e : EmulatorModel) (cfg : Configuration) (env : RunEnv) :
    Option String :=
  if env.shutdownAtStart then none
  else if env.overallDeadlineSet ∧ env.deadlinePassed then none
  else
    match (if cfg.OutputFilePath = "" then env.tempFileCreate
           else .ok cfg.OutputFilePath : Except String String) with
    | .error m => some m
    | .ok _ =>
      match e.initializeOutput with
      | .error m => some m
      | .ok _ =>
        match (if cfg.InputFilePath = "" then .ok cfg.Steps
               else env.inputFileLoad : Except String (List Step)) with
        | .error m => some m
        | .ok _ => none

/-- Per-step substitution of `injectDynamicValues`, `part_003` lines
2850-2856: for each (placeholder, value) pair of the injection entry, in
iteration order, if the placeholder occurs in the step's original text the
result is overwritten with `strings.ReplaceAll` applied to the original
text — so the last matching pair wins. -/
def injectStepText (injection : List (String × String)) (orig : String) : String :=
  injection.foldl
    (fun cur pv => if goContains orig pv.1 then goReplaceAll orig pv.1 pv.2 else cur)
    orig

/-- `injectDynamicValues` from `part_003` lines 2845-2859: copy the
configuration and its steps, substituting each step's text (the Go map's
iteration order is modelled by the order of the association list). -/
def injectDynamicValues (config : Configuration)
    (injection : List (String × String)) : Configuration :=
  { config with
    Steps := config.Steps.map
      (fun st => { st with Text := injectStepText injection st.Text }) }

/-- Sequence of configurations the scheduler sends on the jobs channel,
mirroring `part_003` lines 1260-1264: each release materializes the
template with the injection entry at the cursor, then advances the cursor
modulo the table length; `n` releases starting at `cursor`. -/
def scheduleReleases (template : Configuration)
    (injectData : List (List (String × String))) : Nat → Nat → List Configuration
  | _, 0 => []
  | cursor, n + 1 =>
    injectDynamicValues template (injectData.getD cursor []) ::
      scheduleReleases template injectData ((cursor + 1) % injectData.length) n


/-- Oracle under which every emulator operation succeeds (screen reads
return the empty string). -/
def eOK : EmulatorModel :=
  { initializeOutput := .ok (), connect := .ok (), disconnect := .ok ()
    getValue := fun _ _ _ => .ok "", setString := fun _ => .ok ()
    fillString := fun _ _ _ => .ok (), asciiScreenGrab := .ok ()
    press := fun _ => .ok (), waitForField := .ok () }

/-- Run environment in which no shutdown, deadline or timeout ever fires
and the file operations succeed. -/
def envPlain : RunEnv :=
  { shutdownAtStart := false, overallDeadlineSet := false, deadlinePassed := false
    tempFileCreate := .ok "/tmp/workflowOutput_0", inputFileLoad := .ok []
    workflowTimeout := 0, timedOutAt := fun _ => false, shutdownAt := fun _ => false
    elapsedSeconds := 0, showConnectionErrors := false }

/-- Base configuration used by the concrete scenarios. -/
def baseConfig : Configuration :=
  { Host := "127.0.0.1", Port := 3270, OutputFilePath := "out.html"
    WaitForField := false, Steps := [], Delay := 0, Token := ""
    InputFilePath := "", RampUpBatchSize := 10, RampUpDelay := 1 }

/-- Two-step workflow used to exercise a mid-workflow shutdown. -/
def cfgShutdownDemo : Configuration :=
  { baseConfig with
    Steps := [⟨"PressEnter", ⟨0, 0, 0⟩, "", 0⟩, ⟨"PressTab", ⟨0, 0, 0⟩, "", 0⟩] }

/-- Environment in which the shutdown flag becomes set after the first step
(the between-steps check at `part_003` line 659 fires at index 1). -/
def envShutdownMid : RunEnv :=
  { envPlain with shutdownAt := fun i => i != 0 }

/-- Oracle whose output-file initialization fails. -/
def eInitBoom : EmulatorModel :=
  { eOK with initializeOutput := .error "init boom" }

/-- Configuration holding a `FillString` step at the cursor position
`(Row=0, Column=0)`. -/
def cfgFill00 : Configuration :=
  { baseConfig with Steps := [⟨"FillString", ⟨0, 0, 0⟩, "user1", 0⟩] }

/-- Single-`CheckValue` workflow over the given coordinates and expected
text. -/
def checkValueConfig (r c l : Int) (expText token : String) : Configuration :=
  { baseConfig with
    Steps := [⟨"CheckValue", ⟨r, c, l⟩, expText, 0⟩], Token := token }

/-- Oracle for the CheckValue scenario of §8 of the spec: the screen value
at any coordinates reads back as `"ACTUAL    "`. -/
def eCheckDemo : EmulatorModel :=
  { eOK with getValue := fun _ _ _ => .ok "ACTUAL    " }

/-- Configuration with a step of type `PressPF25`. -/
def pfDemoConfig : Configuration :=
  { baseConfig with Steps := [⟨"PressPF25", ⟨0, 0, 0⟩, "", 0⟩] }

/-- Template whose one step carries a `{{user}}` placeholder. -/
def tmplInj : Configuration :=
  { baseConfig with Steps := [⟨"FillString", ⟨1, 1, 0⟩, "{{user}}", 0⟩] }

/-- Injection table with three entries. -/
def dInj : List (List (String × String)) :=
  [[("{{user}}", "alpha")], [("{{user}}", "beta")], [("{{user}}", "gamma")]]

/-! Helper lemmas shared by the claim theorems. -/

lemma appendLimitedFloat_length_le (s : List ℚ) (v : ℚ) (limit : Int)
    (h : 0 < limit) : ((appendLimitedFloat s v limit).length : Int) ≤ limit := by
  show ((if limit ≤ 0 then s ++ [v]
         else if ((s ++ [v]).length : Int) > limit then
           (s ++ [v]).drop ((s ++ [v]).length - limit.toNat)
         else s ++ [v]).length : Int) ≤ limit
  split_ifs with h1 h2
  · omega
  · rw [List.length_drop]
    omega
  · push_cast at h2 ⊢
    omega

lemma foldl_appendLimitedFloat_le (limit : Int) (h : 0 < limit)
    (vs : List ℚ) (acc : List ℚ) (hacc : (acc.length : Int) ≤ limit) :
    (((vs.foldl (fun a v => appendLimitedFloat a v limit) acc).length : Int)) ≤ limit := by
  induction vs generalizing acc with
  | nil => simpa using hacc
  | cons v vs ih =>
    simp only [List.foldl_cons]
    exact ih _ (appendLimitedFloat_length_le acc v limit h)

lemma nextCandidate_bounds (startPort last : Nat) (h1 : startPort ≤ last)
    (h2 : last ≤ 65000) :
    startPort ≤ nextCandidate startPort last ∧ nextCandidate startPort last ≤ 65000 := by
  unfold nextCandidate
  split <;> omega

lemma sendScriptCommand_transport_closes (conn : Bool) (env : SendEnv)
    (h : isTransport (sendScriptCommand conn env).result = true) :
    (sendScriptCommand conn env).conn = false := by
  unfold sendScriptCommand at h ⊢
  split_ifs at h ⊢ with h1 h2
  · rfl
  · rfl
  · cases hp : parseScriptResponse [] env.lines with
    | ok out => simp [hp, isTransport] at h
    | error e =>
      cases e with
      | semantic m => simp [hp, isTransport] at h
      | transport m => simp [hp]

lemma scheduleReleases_getElem? (template : Configuration)
    (d : List (List (String × String))) (hd : 0 < d.length) :
    ∀ (n cursor k : Nat), k < n → cursor < d.length →
      (scheduleReleases template d cursor n)[k]? =
        some (injectDynamicValues template (d.getD ((cursor + k) % d.length) [])) := by
  intro n
  induction n with
  | zero => intro cursor k hk; omega
  | succ n ih =>
    intro cursor k hk hc
    cases k with
    | zero =>
      simp [scheduleReleases, Nat.mod_eq_of_lt hc]
    | succ k =>
      have hrec := ih ((cursor + 1) % d.length) k (by omega) (Nat.mod_lt _ hd)
      have harg : ((cursor + 1) % d.length + k) % d.length =
          (cursor + (k + 1)) % d.length := by
        rw [Nat.mod_add_mod]
        congr 1
        omega
      simp only [scheduleReleases, List.getElem?_cons_succ]
      rw [hrec, harg]

lemma runSteps_shutdownAborted (e : EmulatorModel) (cfg : Configuration)
    (env : RunEnv) :
    ∀ (steps : List Step) (idx : Nat) (wf : Bool) (errs : List String),
      (runSteps e cfg env steps idx wf false errs).shutdownAborted = true →
      (runSteps e cfg env steps idx wf false errs).workflowFailed = false ∧
      (runSteps e cfg env steps idx wf false errs).connectFailed = false := by
  intro steps
  induction steps with
  | nil =>
    intro idx wf errs h
    simp [runSteps] at h
  | cons step rest ih =>
    intro idx wf errs h
    by_cases hwf : wf
    · subst hwf
      simp [runSteps] at h
    · replace hwf : wf = false := by simpa using hwf
      subst hwf
      by_cases ht : env.workflowTimeout > 0 ∧ env.timedOutAt idx
      · simp [runSteps, ht] at h
      · by_cases hs : env.shutdownAt idx
        · constructor <;> simp [runSteps, ht, hs]
        · cases hsr : stepResult e cfg step with
          | ok u =>
            simp only [runSteps, Bool.false_eq_true, if_false, if_neg ht,
              if_neg hs, hsr] at h ⊢
            exact ih (idx + 1) false errs h
          | error m =>
            by_cases hm : m = "shutdown requested"
            · subst hm
              simp [runSteps, ht, hs, hsr]
            · by_cases hc : step.type = "Connect"
              · simp [runSteps, ht, hs, hsr, hm, hc] at h
              · simp only [runSteps, Bool.false_eq_true, if_false, if_neg ht,
                  if_neg hs, hsr, if_neg hm, if_neg hc] at h ⊢
                exact ih (idx + 1) true (errs ++ [m]) h

lemma executeStep_checkValue (e : EmulatorModel) (r c l : Int)
    (txt token : String) (d : ℚ) :
    executeStep e ⟨"CheckValue", ⟨r, c, l⟩, txt, d⟩ token =
      match e.getValue r c l with
      | .error err => .error err
      | .ok rawValue =>
        if goTrim rawValue ≠ goTrim (resolveTokenPlaceholder txt token) then
          .error ("CheckValue failed. Expected: " ++ resolveTokenPlaceholder txt token
            ++ ", Found: " ++ goTrim rawValue)
        else .ok () := rfl

lemma checkValueMsg_ne_shutdown (a b : String) :
    ("CheckValue failed. Expected: " ++ a ++ ", Found: " ++ b) ≠
      "shutdown requested" := by
  intro h
  have h1 := congrArg String.length h
  rw [String.length_append, String.length_append, String.length_append] at h1
  have hA : ("CheckValue failed. Expected: " : String).length = 29 := by decide
  have hB : (", Found: " : String).length = 9 := by decide
  have hC : ("shutdown requested" : String).length = 18 := by decide
  rw [hA, hB, hC] at h1
  omega

lemma runSteps_single_error (e : EmulatorModel) (cfg : Configuration)
    (env : RunEnv) (step : Step) (m : String)
    (hto : ¬(env.workflowTimeout > 0 ∧ env.timedOutAt 0 = true))
    (hsd : env.shutdownAt 0 = false)
    (hsr : stepResult e cfg step = .error m)
    (hm : m ≠ "shutdown requested")
    (hc : step.type ≠ "Connect") :
    runSteps e cfg env [step] 0 false false [] = ⟨true, false, [m], false⟩ := by
  rw [runSteps]
  rw [if_neg (by simp), if_neg hto, if_neg (by simp [hsd]), hsr]
  dsimp only
  rw [if_neg hm, if_neg hc, runSteps]
  simp

lemma runWorkflow_checkValue_shape (e : EmulatorModel) (r c l : Int)
    (expText token m : String)
    (hinit : e.initializeOutput = .ok ())
    (hsr : stepResult e (checkValueConfig r c l expText token)
      ⟨"CheckValue", ⟨r, c, l⟩, expText, 0⟩ = .error m)
    (hm : m ≠ "shutdown requested") :
    runWorkflowWithEmulator e (checkValueConfig r c l expText token) envPlain =
      ⟨none, 1, 0, 1, [m], false⟩ := by
  have hloop := runSteps_single_error e (checkValueConfig r c l expText token)
    envPlain ⟨"CheckValue", ⟨r, c, l⟩, expText, 0⟩ m (by decide) (by rfl) hsr hm
    (by simp)
  unfold runWorkflowWithEmulator
  rw [if_neg (by decide : ¬(envPlain.shutdownAtStart = true))]
  rw [if_neg (by decide :
    ¬(envPlain.overallDeadlineSet = true ∧ envPlain.deadlinePassed = true))]
  rw [if_neg (show ¬((checkValueConfig r c l expText token).OutputFilePath = "") by
    rw [show (checkValueConfig r c l expText token).OutputFilePath = "out.html" from rfl]
    decide)]
  dsimp only
  rw [hinit]
  dsimp only
  rw [if_pos (show (checkValueConfig r c l expText token).InputFilePath = "" from rfl)]
  dsimp only
  rw [show (checkValueConfig r c l expText token).Steps =
    [⟨"CheckValue", ⟨r, c, l⟩, expText, 0⟩] from rfl]
  rw [hloop]
  rfl

/-- C1, counterexample: in a run whose step loop is abandoned by the
between-steps shutdown check (after `TotalStarted` was incremented), the
workflow IS counted in `TotalCompleted` — `part_003` lines 697-712 fall
into the success branch because neither `workflowFailed` nor
`connectFailed` was set — contradicting the claim that the remaining run
counters are unchanged. -/
theorem shutdownAbortCountedAsCompleted :
    (runWorkflowWithEmulator eOK cfgShutdownDemo envShutdownMid).shutdownAborted = true ∧
    (runWorkflowWithEmulator eOK cfgShutdownDemo envShutdownMid).failed = 0 ∧
    (runWorkflowWithEmulator eOK cfgShutdownDemo envShutdownMid).completed = 1 := by
  decide

/-- C1, amended: for every workflow whose step iteration is aborted by a
shutdown break (the between-steps check or a step returning `shutdown
requested`, both after `TotalStarted` was incremented), `TotalFailed` is
unchanged but the workflow is counted in `TotalCompleted`: started and
completed each increase by one and failed by zero. -/
theorem shutdownAbortCounters :
    ∀ (e : EmulatorModel) (cfg : Configuration) (env : RunEnv),
      (runWorkflowWithEmulator e cfg env).shutdownAborted = true →
      (runWorkflowWithEmulator e cfg env).started = 1 ∧
      (runWorkflowWithEmulator e cfg env).failed = 0 ∧
      (runWorkflowWithEmulator e cfg env).completed = 1 := by
  intro e cfg env h
  unfold runWorkflowWithEmulator at h ⊢
  by_cases h1 : env.shutdownAtStart
  · simp [h1] at h
  · rw [if_neg h1] at h ⊢
    by_cases h2 : env.overallDeadlineSet ∧ env.deadlinePassed
    · simp [h2] at h
    · rw [if_neg h2] at h ⊢
      cases h3 : (if cfg.OutputFilePath = "" then env.tempFileCreate
                  else .ok cfg.OutputFilePath : Except String String) with
      | error m => rw [h3] at h; simp at h
      | ok p =>
        rw [h3] at h
        dsimp only at h ⊢
        cases h4 : e.initializeOutput with
        | error m => rw [h4] at h; simp at h
        | ok u =>
          rw [h4] at h
          dsimp only at h ⊢
          cases h5 : (if cfg.InputFilePath = "" then .ok cfg.Steps
                      else env.inputFileLoad : Except String (List Step)) with
          | error m => rw [h5] at h; simp at h
          | ok steps =>
            rw [h5] at h
            dsimp only at h ⊢
            by_cases hwf : (runSteps e cfg env steps 0 false false []).workflowFailed = true
            · rw [if_pos hwf] at h
              dsimp only at h
              have hx := (runSteps_shutdownAborted e cfg env steps 0 false [] h).1
              simp [hx] at hwf
            · rw [if_neg hwf] at h ⊢
              by_cases hcf : (runSteps e cfg env steps 0 false false []).connectFailed = true
              · rw [if_pos hcf] at h
                dsimp only at h
                have hx := (runSteps_shutdownAborted e cfg env steps 0 false [] h).2
                simp [hx] at hcf
              · rw [if_neg hcf] at h ⊢
                exact ⟨rfl, rfl, rfl⟩

/-- C1, witness: the shutdown-aborted two-step run instantiates the amended
theorem. -/
theorem shutdownAbortCounters_witness :
    (runWorkflowWithEmulator eOK cfgShutdownDemo envShutdownMid).shutdownAborted = true ∧
    ((runWorkflowWithEmulator eOK cfgShutdownDemo envShutdownMid).started = 1 ∧
     (runWorkflowWithEmulator eOK cfgShutdownDemo envShutdownMid).failed = 0 ∧
     (runWorkflowWithEmulator eOK cfgShutdownDemo envShutdownMid).completed = 1) :=
  ⟨by decide, shutdownAbortCounters eOK cfgShutdownDemo envShutdownMid (by decide)⟩

/-- C2, counterexample: when output-file initialization fails, the runner
returns that error (`handleError` at `part_003` lines 2426-2430 returns its
argument, and line 633 propagates it), so the runner does not return nil in
every case; nor is the error counted in `TotalFailed`. -/
theorem initOutputErrorPropagates :
    (runWorkflowWithEmulator eInitBoom cfgShutdownDemo envPlain).ret = some "init boom" ∧
    (runWorkflowWithEmulator eInitBoom cfgShutdownDemo envPlain).failed = 0 := by
  decide

/-- C2, amended: the runner's return value is exactly the first
initialization error (temp-file creation, output-file initialization, or
input-file loading) and nil when the step loop is reached — so step errors
are indeed never propagated — and an initialization error is recorded in
the shared error list but in neither `TotalFailed` nor `TotalCompleted`. -/
theorem runnerErrorPropagation :
    ∀ (e : EmulatorModel) (cfg : Configuration) (env : RunEnv),
      (runWorkflowWithEmulator e cfg env).ret = initFailure e cfg env ∧
      (∀ m, initFailure e cfg env = some m →
        (runWorkflowWithEmulator e cfg env).errors = [m] ∧
        (runWorkflowWithEmulator e cfg env).failed = 0 ∧
        (runWorkflowWithEmulator e cfg env).completed = 0) := by
  intro e cfg env
  unfold runWorkflowWithEmulator initFailure
  by_cases h1 : env.shutdownAtStart
  · simp [h1]
  · rw [if_neg h1, if_neg h1]
    by_cases h2 : env.overallDeadlineSet ∧ env.deadlinePassed
    · simp [h2]
    · rw [if_neg h2, if_neg h2]
      cases h3 : (if cfg.OutputFilePath = "" then env.tempFileCreate
                  else .ok cfg.OutputFilePath : Except String String) with
      | error m => simp
      | ok p =>
        dsimp only
        cases h4 : e.initializeOutput with
        | error m => simp
        | ok u =>
          dsimp only
          cases h5 : (if cfg.InputFilePath = "" then .ok cfg.Steps
                      else env.inputFileLoad : Except String (List Step)) with
          | error m => simp
          | ok steps =>
            dsimp only
            split_ifs <;> simp

/-- C2, witness: the failing-initialization run instantiates the amended
theorem. -/
theorem runnerErrorPropagation_witness :
    initFailure eInitBoom cfgShutdownDemo envPlain = some "init boom" ∧
    (runWorkflowWithEmulator eInitBoom cfgShutdownDemo envPlain).ret = some "init boom" ∧
    ((runWorkflowWithEmulator eInitBoom cfgShutdownDemo envPlain).errors = ["init boom"] ∧
     (runWorkflowWithEmulator eInitBoom cfgShutdownDemo envPlain).failed = 0 ∧
     (runWorkflowWithEmulator eInitBoom cfgShutdownDemo envPlain).completed = 0) :=
  ⟨by decide,
   by rw [(runnerErrorPropagation eInitBoom cfgShutdownDemo envPlain).1]; decide,
   (runnerErrorPropagation eInitBoom cfgShutdownDemo envPlain).2 "init boom" (by decide)⟩

/-- C3, counterexample: a `FillString` step with `Row = 0` and `Column = 0`
does NOT pass configuration validation — the check at `part_003` line 1616
rejects any zero coordinate, including the both-zero cursor variant. -/
theorem fillStringZeroZeroRejected :
    validateConfiguration cfgFill00 =
      .error "coords missing in FillString step - lost in space" := by
  decide

/-- C3, amended: validation rejects a `FillString` or `CheckValue` step
whenever `Row = 0` or `Column = 0` — including the both-zero case — with
the coords-missing configuration error; only step execution supports the
cursor-position variant, running `FillString` with `(0,0)` as
`SetString` (no cursor move). -/
theorem zeroCoordinateValidation :
    (∀ (ty : String) (r c l : Int) (txt : String) (d : ℚ) (rest : List Step),
      (ty = "FillString" ∨ ty = "CheckValue") → (r = 0 ∨ c = 0) →
      validateSteps (⟨ty, ⟨r, c, l⟩, txt, d⟩ :: rest) =
        .error ("coords missing in " ++ ty ++ " step - lost in space")) ∧
    (∀ (e : EmulatorModel) (l : Int) (txt token : String) (d : ℚ),
      executeStep e ⟨"FillString", ⟨0, 0, l⟩, txt, d⟩ token =
        e.setString (resolveTokenPlaceholder txt token)) := by
  constructor
  · intro ty r c l txt d rest hty hz
    rcases hty with rfl | rfl <;> rcases hz with rfl | rfl
    · rw [validateSteps]
      dsimp only
      rw [if_neg (by decide), if_pos (by decide), if_pos (Or.inl rfl)]
    · rw [validateSteps]
      dsimp only
      rw [if_neg (by decide), if_pos (by decide), if_pos (Or.inr rfl)]
    · rw [validateSteps]
      dsimp only
      rw [if_neg (by decide), if_pos (by decide), if_pos (Or.inl rfl)]
    · rw [validateSteps]
      dsimp only
      rw [if_neg (by decide), if_pos (by decide), if_pos (Or.inr rfl)]
  · intro e l txt token d
    rfl

/-- C3, witness: a `CheckValue` step with only `Column = 0` is rejected,
and a `(0,0)` `FillString` executes as `SetString` at the cursor. -/
theorem zeroCoordinateValidation_witness :
    validateSteps [⟨"CheckValue", ⟨3, 0, 4⟩, "menu", 0⟩] =
      .error "coords missing in CheckValue step - lost in space" ∧
    executeStep eOK ⟨"FillString", ⟨0, 0, 5⟩, "hi", 0⟩ "" = eOK.setString "hi" :=
  ⟨zeroCoordinateValidation.1 "CheckValue" 3 0 4 "menu" 0 [] (Or.inr rfl) (Or.inr rfl),
   zeroCoordinateValidation.2 eOK 5 "hi" "" 0⟩

/-- C4, counterexample: when the cursor passes 65000 it wraps back to
`startPort` itself (`part_003` line 1526), not `startPort + 1`, and
`startPort` is handed out if available — here the allocator at cursor 65000
returns port 5000 = startPort, outside the claimed range `[5001, 65000]`. -/
theorem portAllocatorHandsOutStartPort :
    getNextAvailablePortAux (fun p => p == 5000) 5000 65000 1 = some 5000 := by
  rfl

/-- C4, amended: every port number returned by the allocator lies in the
range `[startPort, 65000]` (given a cursor in that range), and when the
cursor passes 65000 it wraps back to `startPort` itself, which can
therefore be handed out. -/
theorem portAllocatorRangeAndWrap :
    (∀ (avail : Nat → Bool) (startPort last fuel p : Nat),
      startPort ≤ last → last ≤ 65000 →
      getNextAvailablePortAux avail startPort last fuel = some p →
      startPort ≤ p ∧ p ≤ 65000) ∧
    (∀ startPort : Nat, nextCandidate startPort 65000 = startPort) := by
  constructor
  · intro avail startPort last fuel
    induction fuel generalizing last with
    | zero =>
      intro p _ _ hres
      simp [getNextAvailablePortAux] at hres
    | succ n ih =>
      intro p h1 h2 hres
      have hc := nextCandidate_bounds startPort last h1 h2
      rw [getNextAvailablePortAux] at hres
      by_cases ha : avail (nextCandidate startPort last)
      · simp only [ha, if_true] at hres
        obtain rfl : nextCandidate startPort last = p := by
          simpa using hres
        exact hc
      · simp only [ha, if_false, Bool.false_eq_true] at hres
        exact ih _ p hc.1 hc.2 hres
  · intro startPort
    rfl

/-- C4, witness: from cursor 5000 with start port 5000 the allocator finds
port 5002, which the amended theorem places in `[5000, 65000]`. -/
theorem portAllocatorRangeAndWrap_witness :
    getNextAvailablePortAux (fun p => p == 5002) 5000 5000 5 = some 5002 ∧
    5000 ≤ 5002 ∧ 5002 ≤ 65000 :=
  ⟨by rfl,
   portAllocatorRangeAndWrap.1 (fun p => p == 5002) 5000 5000 5 5002
     (by norm_num) (by norm_num) (by rfl)⟩

/-- C5: for every script-port command, a first exchange failing with a
transport error (dial, write, or read failure) leaves the connection
closed and the command is re-issued exactly once, on a connection that is
dialed fresh, its outcome returned as is; an `error ...` terminator is a
semantic failure answered after exactly one exchange with no transport
retry; a successful exchange is not repeated. -/
theorem scriptRequestRetryPolicy :
    ∀ (conn : Bool) (env1 env2 : SendEnv),
      (isTransport (sendScriptCommand conn env1).result = true →
        (sendScriptCommand conn env1).conn = false ∧
        scriptRequest conn env1 env2 =
          ⟨2, (sendScriptCommand false env2).conn,
              (sendScriptCommand false env2).result⟩) ∧
      (∀ m, (sendScriptCommand conn env1).result = .error (.semantic m) →
        scriptRequest conn env1 env2 =
          ⟨1, (sendScriptCommand conn env1).conn, .error (.semantic m)⟩) ∧
      (∀ out, (sendScriptCommand conn env1).result = .ok out →
        scriptRequest conn env1 env2 =
          ⟨1, (sendScriptCommand conn env1).conn, .ok out⟩) := by
  intro conn env1 env2
  refine ⟨?_, ?_, ?_⟩
  · intro h
    have hc := sendScriptCommand_transport_closes conn env1 h
    refine ⟨hc, ?_⟩
    cases hr : (sendScriptCommand conn env1).result with
    | ok out => rw [hr] at h; simp [isTransport] at h
    | error e =>
      cases e with
      | semantic m => rw [hr] at h; simp [isTransport] at h
      | transport m => simp only [scriptRequest, hr, hc]
  · intro m hr
    simp only [scriptRequest, hr]
  · intro out hr
    simp only [scriptRequest, hr]

/-- C5, witness: a write failure on a live connection (a transport error)
closes it, and the retried exchange on a fresh dial succeeds, two attempts
in total. -/
theorem scriptRequestRetryPolicy_witness :
    isTransport (sendScriptCommand true ⟨true, false, []⟩).result = true ∧
    (sendScriptCommand true ⟨true, false, []⟩).conn = false ∧
    scriptRequest true ⟨true, false, []⟩ ⟨true, true, ["ok"]⟩ =
      ⟨2, true, .ok ""⟩ :=
  ⟨by rfl,
   ((scriptRequestRetryPolicy true ⟨true, false, []⟩ ⟨true, true, ["ok"]⟩).1 (by rfl)).1,
   ((scriptRequestRetryPolicy true ⟨true, false, []⟩ ⟨true, true, ["ok"]⟩).1 (by rfl)).2⟩

/-- C6, counterexample: an empty `Wait(…, InputField)` status output makes
`WaitForField` succeed (`emulator.go` lines 225-228) even though its first
whitespace-separated token is not `U` (there is no token at all), so
success is not equivalent to the first token being `U`. -/
theorem waitForFieldEmptyOutputSucceeds :
    waitForFieldCheck "" = .ok () ∧ (goFields "").head? ≠ some "U" := by
  decide

/-- C6, amended: `WaitForField` accepts a status output exactly when it has
no whitespace-separated tokens (empty or all-whitespace output) or its
first token is `U`; any other first token yields the keyboard-not-unlocked
error naming that token. -/
theorem waitForFieldSuccessCondition :
    ∀ output : String,
      (waitForFieldCheck output = .ok () ↔
        goFields output = [] ∨ (goFields output).head? = some "U") ∧
      (∀ tok rest, goFields output = tok :: rest → tok ≠ "U" →
        waitForFieldCheck output =
          .error ("keyboard not unlocked, state was: " ++ tok)) := by
  intro output
  have hempty : goFields "" = [] := by decide
  constructor
  · by_cases h0 : output = ""
    · subst h0
      simp [waitForFieldCheck, hempty]
    · unfold waitForFieldCheck
      rw [if_neg h0]
      cases hg : goFields output with
      | nil => simp
      | cons tok rest =>
        by_cases ht : tok = "U"
        · subst ht
          simp
        · simp [ht]
  · intro tok rest hg ht
    have h0 : output ≠ "" := by
      intro h
      subst h
      rw [hempty] at hg
      cases hg
    unfold waitForFieldCheck
    rw [if_neg h0, hg]
    simp [ht]

/-- C6, witness: the locked status `L locked` produces the
keyboard-not-unlocked error for token `L`, and the unlocked status
`U F U` satisfies the success condition. -/
theorem waitForFieldSuccessCondition_witness :
    goFields "L locked" = ["L", "locked"] ∧
    waitForFieldCheck "L locked" =
      .error "keyboard not unlocked, state was: L" ∧
    (waitForFieldCheck "U F U" = .ok () ↔
      goFields "U F U" = [] ∨ (goFields "U F U").head? = some "U") :=
  ⟨by decide,
   (waitForFieldSuccessCondition "L locked").2 "L" ["locked"] (by decide) (by decide),
   (waitForFieldSuccessCondition "U F U").1⟩

/-- C7: with a non-empty injection table, the k-th workflow released by the
scheduler (counting from 1, i.e. index k-1 from 0) is the template
materialized with the injection entry at index `(k-1) mod L`, substitution
applied to a copy of the template's step texts. -/
theorem schedulerInjectionRotation :
    ∀ (template : Configuration) (d : List (List (String × String))) (n k : Nat),
      d ≠ [] → k < n →
      (scheduleReleases template d 0 n)[k]? =
        some (injectDynamicValues template (d.getD (k % d.length) [])) := by
  intro template d n k hd hk
  have hlen : 0 < d.length := List.length_pos.mpr hd
  have h := scheduleReleases_getElem? template d hlen n 0 k hk hlen
  simpa using h

/-- C7, witness: with a table of 3 entries and 7 workflows, releases
1, 4, 7 use entry 0, releases 2, 5 use entry 1, and releases 3, 6 use
entry 2. -/
theorem schedulerInjectionRotation_witness :
    (scheduleReleases tmplInj dInj 0 7)[0]? = some (injectDynamicValues tmplInj [("{{user}}", "alpha")]) ∧
    (scheduleReleases tmplInj dInj 0 7)[1]? = some (injectDynamicValues tmplInj [("{{user}}", "beta")]) ∧
    (scheduleReleases tmplInj dInj 0 7)[2]? = some (injectDynamicValues tmplInj [("{{user}}", "gamma")]) ∧
    (scheduleReleases tmplInj dInj 0 7)[3]? = some (injectDynamicValues tmplInj [("{{user}}", "alpha")]) ∧
    (scheduleReleases tmplInj dInj 0 7)[4]? = some (injectDynamicValues tmplInj [("{{user}}", "beta")]) ∧
    (scheduleReleases tmplInj dInj 0 7)[5]? = some (injectDynamicValues tmplInj [("{{user}}", "gamma")]) ∧
    (scheduleReleases tmplInj dInj 0 7)[6]? = some (injectDynamicValues tmplInj [("{{user}}", "alpha")]) :=
  ⟨schedulerInjectionRotation tmplInj dInj 7 0 (by decide) (by decide),
   schedulerInjectionRotation tmplInj dInj 7 1 (by decide) (by decide),
   schedulerInjectionRotation tmplInj dInj 7 2 (by decide) (by decide),
   schedulerInjectionRotation tmplInj dInj 7 3 (by decide) (by decide),
   schedulerInjectionRotation tmplInj dInj 7 4 (by decide) (by decide),
   schedulerInjectionRotation tmplInj dInj 7 5 (by decide) (by decide),
   schedulerInjectionRotation tmplInj dInj 7 6 (by decide) (by decide)⟩

/-- C8: every append through `appendLimitedFloat` leaves the
workflow-durations buffer with at most 500 samples and the cpuUsage /
memoryUsage buffers with at most 120 samples each, whatever the previous
buffer contents; consequently every buffer reachable by appends from the
empty initial buffer respects its bound at all times. -/
theorem metricBuffersBounded :
    (∀ (s : List ℚ) (v : ℚ),
      (appendLimitedFloat s v workflowDurationHistoryLimit).length ≤ 500 ∧
      (appendLimitedFloat s v cpuHistoryLimit).length ≤ 120 ∧
      (appendLimitedFloat s v memHistoryLimit).length ≤ 120) ∧
    (∀ vs : List ℚ,
      (vs.foldl (fun a v => appendLimitedFloat a v workflowDurationHistoryLimit) []).length ≤ 500 ∧
      (vs.foldl (fun a v => appendLimitedFloat a v cpuHistoryLimit) []).length ≤ 120 ∧
      (vs.foldl (fun a v => appendLimitedFloat a v memHistoryLimit) []).length ≤ 120) := by
  constructor
  · intro s v
    refine ⟨?_, ?_, ?_⟩
    · have h := appendLimitedFloat_length_le s v workflowDurationHistoryLimit
        (by norm_num [workflowDurationHistoryLimit])
      rw [workflowDurationHistoryLimit] at h
      exact_mod_cast h
    · have h := appendLimitedFloat_length_le s v cpuHistoryLimit
        (by norm_num [cpuHistoryLimit])
      rw [cpuHistoryLimit] at h
      exact_mod_cast h
    · have h := appendLimitedFloat_length_le s v memHistoryLimit
        (by norm_num [memHistoryLimit])
      rw [memHistoryLimit] at h
      exact_mod_cast h
  · intro vs
    refine ⟨?_, ?_, ?_⟩
    · have h := foldl_appendLimitedFloat_le workflowDurationHistoryLimit
        (by norm_num [workflowDurationHistoryLimit]) vs []
        (by norm_num [workflowDurationHistoryLimit])
      rw [workflowDurationHistoryLimit] at h
      exact_mod_cast h
    · have h := foldl_appendLimitedFloat_le cpuHistoryLimit
        (by norm_num [cpuHistoryLimit]) vs [] (by norm_num [cpuHistoryLimit])
      rw [cpuHistoryLimit] at h
      exact_mod_cast h
    · have h := foldl_appendLimitedFloat_le memHistoryLimit
        (by norm_num [memHistoryLimit]) vs [] (by norm_num [memHistoryLimit])
      rw [memHistoryLimit] at h
      exact_mod_cast h

/-- C9: when a `CheckValue` step reads a screen value whose trimmed form
differs from the trimmed token-resolved expected text, the step fails with
the message exactly `CheckValue failed. Expected: <expected>, Found:
<trimmed value>`, and the single-step workflow is tallied as exactly one
failure (started 1, completed 0, failed 1) with that message in the shared
error list. -/
theorem checkValueMismatch :
    ∀ (e : EmulatorModel) (r c l : Int) (expText token rawValue : String),
      e.getValue r c l = .ok rawValue →
      e.initializeOutput = .ok () →
      goTrim rawValue ≠ goTrim (resolveTokenPlaceholder expText token) →
      executeStep e ⟨"CheckValue", ⟨r, c, l⟩, expText, 0⟩ token =
        .error ("CheckValue failed. Expected: " ++ resolveTokenPlaceholder expText token
          ++ ", Found: " ++ goTrim rawValue) ∧
      runWorkflowWithEmulator e (checkValueConfig r c l expText token) envPlain =
        ⟨none, 1, 0, 1,
         ["CheckValue failed. Expected: " ++ resolveTokenPlaceholder expText token
          ++ ", Found: " ++ goTrim rawValue], false⟩ := by
  intro e r c l expText token rawValue hgv hinit hne
  have hexec : executeStep e ⟨"CheckValue", ⟨r, c, l⟩, expText, 0⟩ token =
      .error ("CheckValue failed. Expected: " ++ resolveTokenPlaceholder expText token
        ++ ", Found: " ++ goTrim rawValue) := by
    rw [executeStep_checkValue, hgv]
    dsimp only
    rw [if_pos hne]
  refine ⟨hexec, ?_⟩
  apply runWorkflow_checkValue_shape
  · exact hinit
  · unfold stepResult
    rw [show (checkValueConfig r c l expText token).Token = token from rfl, hexec]
  · exact checkValueMsg_ne_shutdown _ _

/-- C9, witness: the concrete scenario of §8 of the spec — raw value
`"ACTUAL    "` against expected `"EXPECTED"` — yields exactly the message
`CheckValue failed. Expected: EXPECTED, Found: ACTUAL` and one counted
failure. -/
theorem checkValueMismatch_witness :
    eCheckDemo.getValue 1 2 11 = .ok "ACTUAL    " ∧
    executeStep eCheckDemo ⟨"CheckValue", ⟨1, 2, 11⟩, "EXPECTED", 0⟩ "" =
      .error "CheckValue failed. Expected: EXPECTED, Found: ACTUAL" ∧
    runWorkflowWithEmulator eCheckDemo (checkValueConfig 1 2 11 "EXPECTED" "") envPlain =
      ⟨none, 1, 0, 1, ["CheckValue failed. Expected: EXPECTED, Found: ACTUAL"], false⟩ :=
  ⟨rfl,
   (checkValueMismatch eCheckDemo 1 2 11 "EXPECTED" "" "ACTUAL    " rfl rfl (by decide)).1,
   (checkValueMismatch eCheckDemo 1 2 11 "EXPECTED" "" "ACTUAL    " rfl rfl (by decide)).2⟩

/-- C10: the configuration whose only step has type `PressPF25` passes
`validateConfiguration` (which accepts any type with the mere prefix
`PressPF`), while step execution rejects it as an unknown step type — only
`PressPF1` … `PressPF24` are dispatched — and the run is tallied as a
workflow failure with that error recorded. -/
theorem pressPFValidationExecutionMismatch :
    validateConfiguration pfDemoConfig = .ok () ∧
    executeStep eOK ⟨"PressPF25", ⟨0, 0, 0⟩, "", 0⟩ "" =
      .error "unknown step type: PressPF25" ∧
    runWorkflowWithEmulator eOK pfDemoConfig envPlain =
      ⟨none, 1, 0, 1, ["unknown step type: PressPF25"], false⟩ := by
  refine ⟨by decide, by decide, by decide⟩
